import Mathlib

/-!
Shallow embedding of `packages/performance/src/services/remote_config_service.ts`
(firebase-js-sdk performance remote-config service).

Modelling conventions:
* JavaScript numbers are modelled exactly: integer-valued doubles as `Int`/`Nat`
  and general doubles as `JsNum` (a rational together with `NaN` and the two
  infinities).  The code keeps every value integral except for sampling rates
  and the random draw, which are rationals here.
* Strings are Lean `String`s; installation ids and hash seeds are lists of
  UTF-16 code units (`List Nat`, the values returned by `charCodeAt`).
* The asynchronous promise chains are embedded in the `Except Unit` monad:
  `Except.error ()` is a rejected promise / thrown exception, `Except.ok` a
  fulfilled one.  External collaborators (auth token provider, `fetch`,
  `localStorage`) become explicit inputs in an `Env` record.
-/

set_option maxRecDepth 4000

namespace RemoteConfigService

/-- JavaScript double restricted to the values this module can produce:
a rational number, `NaN`, or one of the two infinities. -/
inductive JsNum where
  | nan : JsNum
  | inf : JsNum
  | ninf : JsNum
  | num (q : ℚ) : JsNum
  deriving DecidableEq

/-- JavaScript `<` on numbers: any comparison involving `NaN` is false. -/
def jsLt : JsNum → JsNum → Bool
  | .nan, _ => false
  | _, .nan => false
  | .inf, _ => false
  | _, .inf => true
  | .ninf, .ninf => false
  | .ninf, .num _ => true
  | .num _, .ninf => false
  | .num a, .num b => decide (a < b)

/-- JavaScript `<=` on numbers: any comparison involving `NaN` is false. -/
def jsLe : JsNum → JsNum → Bool
  | .nan, _ => false
  | _, .nan => false
  | .ninf, _ => true
  | _, .inf => true
  | .inf, _ => false
  | .num _, .ninf => false
  | .num a, .num b => decide (a ≤ b)

/-- JavaScript `>` on numbers, which agrees with the flipped `<` on
non-`NaN` operands and is false whenever `NaN` is involved. -/
def jsGt (a b : JsNum) : Bool := jsLt b a

/-- ToInt32 conversion used by the JavaScript bitwise operators: reduce the
(here always integral) value modulo 2^32 into the signed range
[-2^31, 2^31). -/
def toInt32 (x : Int) : Int := (x + 2 ^ 31) % 2 ^ 32 - 2 ^ 31

/-- JavaScript `x << 3`: convert the operand with ToInt32, shift left by
three (i.e. multiply by 8) and interpret the low 32 bits as a signed
32-bit integer. -/
def jsShl3 (x : Int) : Int := toInt32 (toInt32 x * 8)

/-- Loop body of `getHashPercent`: `hash = (hash << 3) + hash - seed.charCodeAt(i)`.
Only the shift truncates to 32 bits; the additions are exact double
arithmetic (exact integers in this model). -/
def hashStep (hash : Int) (c : Nat) : Int := jsShl3 hash + hash - c

/-- Running hash of `getHashPercent` after consuming the whole seed,
starting from 0 and processing code units left to right. -/
def hashLoop (seed : List Nat) : Int := seed.foldl hashStep 0

/-- Model of `getHashPercent(seed)`: the hash loop followed by
`hash = Math.abs(hash % 100)`.  JavaScript `%` is the truncated remainder
(`Int.tmod`), and `Math.abs` is the absolute value. -/
def getHashPercent (seed : List Nat) : Nat := (Int.tmod (hashLoop seed) 100).natAbs

/-- Model of `isDestTransport(iid, rolloutPercent)`: false for an empty id,
otherwise `getHashPercent(iid) < rolloutPercent` under JavaScript number
comparison (the rollout percent is a double parsed from the template). -/
def isDestTransport (iid : List Nat) (rolloutPercent : JsNum) : Bool :=
  if iid.length = 0 then false
  else jsLt (.num (getHashPercent iid)) rolloutPercent

/-- Reference computation named by the claim: one step of
`hash = hash*9 - charCode` carried out entirely in wrapping 32-bit signed
arithmetic. -/
def specWrapStep (hash : Int) (c : Nat) : Int := toInt32 (9 * hash - c)

/-- Reference `hashPercent` of the claim: fold `specWrapStep` over the seed
starting from 0, then take `abs(hash mod 100)` (truncated remainder, as in
the source language). -/
def specWrapHashPercent (seed : List Nat) : Nat :=
  (Int.tmod (seed.foldl specWrapStep 0) 100).natAbs

/-- Amended reference computation: per character
`hash = toInt32(hash * 8) + hash - charCode`, truncating to 32 bits only on
the multiplication/shift while the remaining additions are exact; the final
value is `abs(hash) mod 100`. -/
def specShiftTruncHashPercent (seed : List Nat) : Nat :=
  (seed.foldl (fun (hash : Int) (c : Nat) => toInt32 (hash * 8) + hash - c) 0).natAbs % 100

/-- Value of a decimal digit character. -/
def digToNat (c : Char) : Nat := c.toNat - '0'.toNat

/-- Reading of a non-empty all-digit character list as a natural number
(most significant digit first). -/
def parseDigits (cs : List Char) : Option Nat :=
  if cs ≠ [] ∧ cs.all Char.isDigit then
    some (Nat.ofDigits 10 ((cs.map digToNat).reverse))
  else none

/-- Modelled from the JS `Number` builtin restricted to the string shapes
this module produces and consumes: the empty string converts to 0,
`"Infinity"`/`"-Infinity"` to the infinities, optional-minus-sign decimal
integer strings to their value, and everything else (fractional, exponent,
hex, padded forms are outside the model) to `NaN`. -/
def jsNumber (s : String) : JsNum :=
  if s.data = [] then .num 0
  else if s = "Infinity" then .inf
  else if s = "-Infinity" then .ninf
  else if s.data.head? = some '-' then
    match parseDigits s.data.tail with
    | some n => .num (-(n : ℚ))
    | none => .nan
  else
    match parseDigits s.data with
    | some n => .num (n : ℚ)
    | none => .nan

/-- JavaScript `String(n)` for a non-negative integer: its decimal digits. -/
def natToString (n : Nat) : String :=
  if n = 0 then "0" else ⟨((Nat.digits 10 n).map Nat.digitChar).reverse⟩

/-- Raw template fields of a remote config response (`RemoteConfigTemplate`):
every field is an optional string exactly as on the wire. -/
structure RemoteConfigTemplate where
  fpr_enabled : Option String := none
  fpr_log_source : Option String := none
  fpr_log_endpoint_url : Option String := none
  fpr_log_transport_key : Option String := none
  fpr_log_transport_web_percent : Option String := none
  fpr_vc_network_request_sampling_rate : Option String := none
  fpr_vc_trace_sampling_rate : Option String := none
  fpr_vc_session_sampling_rate : Option String := none
  deriving DecidableEq

instance : Inhabited RemoteConfigTemplate := ⟨{}⟩

/-- Wire-level payload (`RemoteConfigResponse`): optional template entries
and an optional state string. -/
structure RemoteConfigResponse where
  entries : Option RemoteConfigTemplate := none
  state : Option String := none
  deriving DecidableEq

/-- Mutable fields of the `SettingsService` singleton that `processConfig`
writes. -/
structure Settings where
  loggingEnabled : Bool
  logSource : JsNum
  logEndPointUrl : String
  transportKey : String
  shouldSendToTransport : Bool
  networkRequestsSamplingRate : JsNum
  tracesSamplingRate : JsNum
  logTraceAfterSampling : Bool
  logNetworkAfterSampling : Bool
  deriving DecidableEq

/-- Optional fallback values (`SecondaryConfig` interface). -/
structure SecondaryConfig where
  loggingEnabled : Option Bool := none
  logSource : Option JsNum := none
  logEndPointUrl : Option String := none
  transportKey : Option String := none
  shouldSendToTransport : Option Bool := none
  tracesSamplingRate : Option JsNum := none
  networkRequestsSamplingRate : Option JsNum := none

/-- Values used when the template was retrieved but lacks a field. -/
def SECONDARY_CONFIGS : SecondaryConfig :=
  { loggingEnabled := some true
    shouldSendToTransport := some true }

/-- Values used when the config state shows unspecified or no template. -/
def NO_TEMPLATE_CONFIGS : SecondaryConfig :=
  { shouldSendToTransport := some false }

/-- JavaScript truthiness of an optional string: `undefined` and the empty
string are falsy, every other string truthy. -/
def strTruthy : Option String → Bool
  | none => false
  | some v => !(v == "")

/-- JavaScript truthiness of an optional number: `undefined`, `NaN` and 0
are falsy. -/
def jsNumTruthy : Option JsNum → Bool
  | none => false
  | some .nan => false
  | some .inf => true
  | some .ninf => true
  | some (.num q) => !(q == 0)

/-- Model of `shouldLogAfterSampling(samplingRate)`: the `Math.random()`
draw is passed in explicitly and compared with `<=` against the rate. -/
def shouldLogAfterSampling (samplingRate : JsNum) (rand : ℚ) : Bool :=
  jsLe (.num rand) samplingRate

/-- Block of `processConfig` for `fpr_enabled`:
`if (entries.fpr_enabled !== undefined) ... else if
(SECONDARY_CONFIGS.loggingEnabled !== undefined) ...`. -/
def applyLoggingEnabled (entries : RemoteConfigTemplate) (s : Settings) : Settings :=
  match entries.fpr_enabled with
  | some v => { s with loggingEnabled := v == "true" }
  | none =>
    match SECONDARY_CONFIGS.loggingEnabled with
    | some b => { s with loggingEnabled := b }
    | none => s

/-- Block of `processConfig` for `fpr_log_source`:
`if (entries.fpr_log_source) ... else if (SECONDARY_CONFIGS.logSource) ...`
(JavaScript truthiness checks). -/
def applyLogSource (entries : RemoteConfigTemplate) (s : Settings) : Settings :=
  if strTruthy entries.fpr_log_source then
    { s with logSource := jsNumber (entries.fpr_log_source.getD "") }
  else if jsNumTruthy SECONDARY_CONFIGS.logSource then
    { s with logSource := SECONDARY_CONFIGS.logSource.getD .nan }
  else s

/-- Block of `processConfig` for `fpr_log_endpoint_url` (truthiness checks). -/
def applyLogEndPointUrl (entries : RemoteConfigTemplate) (s : Settings) : Settings :=
  if strTruthy entries.fpr_log_endpoint_url then
    { s with logEndPointUrl := entries.fpr_log_endpoint_url.getD "" }
  else if strTruthy SECONDARY_CONFIGS.logEndPointUrl then
    { s with logEndPointUrl := SECONDARY_CONFIGS.logEndPointUrl.getD "" }
  else s

/-- Block of `processConfig` for `fpr_log_transport_key` (truthiness
checks; a key from remote config has to be non-empty). -/
def applyTransportKey (entries : RemoteConfigTemplate) (s : Settings) : Settings :=
  if strTruthy entries.fpr_log_transport_key then
    { s with transportKey := entries.fpr_log_transport_key.getD "" }
  else if strTruthy SECONDARY_CONFIGS.transportKey then
    { s with transportKey := SECONDARY_CONFIGS.transportKey.getD "" }
  else s

/-- Block of `processConfig` deciding `shouldSendToTransport` from the
config state and the rollout percent field. -/
def applyTransportFlag (iid : List Nat) (entries : RemoteConfigTemplate)
    (state : Option String) (s : Settings) : Settings :=
  if state.isNone || state == some "INSTANCE_STATE_UNSPECIFIED"
      || state == some "NO_TEMPLATE" then
    if NO_TEMPLATE_CONFIGS.shouldSendToTransport.isSome then
      { s with shouldSendToTransport :=
          NO_TEMPLATE_CONFIGS.shouldSendToTransport.getD false }
    else s
  else if entries.fpr_log_transport_web_percent.isSome then
    let percent := jsNumber (entries.fpr_log_transport_web_percent.getD "")
    { s with shouldSendToTransport := isDestTransport iid percent }
  else if SECONDARY_CONFIGS.shouldSendToTransport.isSome then
    { s with shouldSendToTransport :=
        SECONDARY_CONFIGS.shouldSendToTransport.getD false }
  else s

/-- Block of `processConfig` for `fpr_vc_network_request_sampling_rate`
(`!== undefined` check). -/
def applyNetworkRate (entries : RemoteConfigTemplate) (s : Settings) : Settings :=
  match entries.fpr_vc_network_request_sampling_rate with
  | some v => { s with networkRequestsSamplingRate := jsNumber v }
  | none =>
    match SECONDARY_CONFIGS.networkRequestsSamplingRate with
    | some r => { s with networkRequestsSamplingRate := r }
    | none => s

/-- Block of `processConfig` for `fpr_vc_trace_sampling_rate`
(`!== undefined` check). -/
def applyTraceRate (entries : RemoteConfigTemplate) (s : Settings) : Settings :=
  match entries.fpr_vc_trace_sampling_rate with
  | some v => { s with tracesSamplingRate := jsNumber v }
  | none =>
    match SECONDARY_CONFIGS.tracesSamplingRate with
    | some r => { s with tracesSamplingRate := r }
    | none => s

/-- Final block of `processConfig`: the per-session trace and network
logging flags from the two `Math.random()` draws (in source order). -/
def applySamplingFlags (s : Settings) (randTrace randNetwork : ℚ) : Settings :=
  { s with
    logTraceAfterSampling :=
      shouldLogAfterSampling s.tracesSamplingRate randTrace
    logNetworkAfterSampling :=
      shouldLogAfterSampling s.networkRequestsSamplingRate randNetwork }

/-- Model of `processConfig(iid, config)`: returns the config unchanged and
the updated settings, applying the source's if-blocks in order.  The two
`Math.random()` draws made at the end are explicit inputs `randTrace` and
`randNetwork`. -/
def processConfig (iid : List Nat) (config : Option RemoteConfigResponse)
    (s : Settings) (randTrace randNetwork : ℚ) :
    Option RemoteConfigResponse × Settings :=
  match config with
  | none => (none, s)
  | some cfg =>
    let entries := cfg.entries.getD {}
    let state := cfg.state
    let s1 := applyLoggingEnabled entries s
    let s2 := applyLogSource entries s1
    let s3 := applyLogEndPointUrl entries s2
    let s4 := applyTransportKey entries s3
    let s5 := applyTransportFlag iid entries state s4
    let s6 := applyNetworkRate entries s5
    let s7 := applyTraceRate entries s6
    let s8 := applySamplingFlags s7 randTrace randNetwork
    (some cfg, s8)

/-- Model of `configValid(expiry)`: `Number(expiry) > Date.now()`, with the
read-time clock value passed explicitly. -/
def configValid (expiry : String) (now : Nat) : Bool :=
  jsGt (jsNumber expiry) (.num now)

/-- Content found under the config blob local-storage key: either a value
that `JSON.parse` rejects (including the falsy empty string) or a parsed
`RemoteConfigResponse`.  `JSON.stringify`/`JSON.parse` on this record of
plain optional strings is modelled as an injective codec, i.e. identity at
the model level. -/
inductive StoredBlob where
  | corrupt : StoredBlob
  | parsed (r : RemoteConfigResponse) : StoredBlob
  deriving DecidableEq

/-- State of the `localStorage` collaborator: the two slots written by this
module plus a flag saying whether `setItem` throws (storage unavailable or
full). -/
structure Storage where
  expiryString : Option String := none
  configBlob : Option StoredBlob := none
  setItemThrows : Bool := false
  deriving DecidableEq

/-- Model of `getStoredConfig()`: absent storage, missing/falsy slots, an
invalid expiry, or an unparseable blob all yield a cache miss (`none`). -/
def getStoredConfig (localStorage : Option Storage) (now : Nat) :
    Option RemoteConfigResponse :=
  match localStorage with
  | none => none
  | some st =>
    match st.expiryString with
    | none => none
    | some expiryString =>
      if expiryString == "" then none
      else if !configValid expiryString now then none
      else
        match st.configBlob with
        | none => none
        | some .corrupt => none
        | some (.parsed r) => some r

/-- Model of `storeConfig(config)`: a no-op for an absent config or absent
storage; otherwise writes the serialized config and the expiry timestamp
`Date.now() + configTimeToLive * 60 * 60 * 1000`, throwing
(`Except.error`) when `setItem` fails. -/
def storeConfig (config : Option RemoteConfigResponse)
    (localStorage : Option Storage) (now configTimeToLive : Nat) :
    Except Unit (Option Storage) :=
  match config, localStorage with
  | none, _ => .ok localStorage
  | some _, none => .ok localStorage
  | some cfg, some st =>
    if st.setItemThrows then .error ()
    else
      .ok (some { st with
        configBlob := some (.parsed cfg)
        expiryString :=
          some (natToString (now + configTimeToLive * 60 * 60 * 1000)) })

/-- Behaviour of one `fetch` response: HTTP status flag and the outcome of
`response.json()`. -/
structure FetchResponse where
  ok : Bool
  json : Except Unit RemoteConfigResponse

/-- External collaborators of one `getConfig` resolution: the storage
singleton, the clock, the settings-service TTL in hours, the auth token
promise and the fetch promise (either may reject). -/
structure Env where
  localStorage : Option Storage
  now : Nat
  configTimeToLive : Nat
  authToken : Except Unit String
  fetchResult : Except Unit FetchResponse

/-- Model of `getRemoteConfig(iid)`: await the auth token, fetch, parse the
body on a 2xx status and throw `RC_NOT_OK` otherwise; the trailing
`.catch` turns every rejection into a logged `undefined` result. -/
def getRemoteConfig (env : Env) : Except Unit (Option RemoteConfigResponse) :=
  let attempt : Except Unit (Option RemoteConfigResponse) := do
    let _authToken ← env.authToken
    let response ← env.fetchResult
    if response.ok then
      let r ← response.json
      pure (some r)
    else
      -- In case response is not ok. This will be caught by catch.
      .error ()
  match attempt with
  | .ok v => .ok v
  | .error _ => .ok none

/-- Model of `getConfig(iid)`: prefer a valid cached config; otherwise
fetch, apply, and persist.  The `() => {}` rejection handler is the second
argument of the same `.then` whose fulfillment handler calls
`storeConfig`, so it swallows only rejections of the upstream
fetch-and-process chain; an exception thrown by `storeConfig` itself
(e.g. a throwing `localStorage.setItem`) rejects the promise this `.then`
returns, and with it the promise returned by `getConfig`.  The result is
the final settings and storage state. -/
def getConfig (iid : List Nat) (env : Env) (s : Settings)
    (randTrace randNetwork : ℚ) : Except Unit (Settings × Option Storage) :=
  match getStoredConfig env.localStorage env.now with
  | some cfg =>
    let res := processConfig iid (some cfg) s randTrace randNetwork
    .ok (res.2, env.localStorage)
  | none =>
    match getRemoteConfig env with
    | .error _ =>
      /- Do nothing for error, use defaults set in settings service. -/
      .ok (s, env.localStorage)
    | .ok remote =>
      let res := processConfig iid remote s randTrace randNetwork
      match storeConfig res.1 env.localStorage env.now env.configTimeToLive with
      | .ok localStorage => .ok (res.2, localStorage)
      | .error e => .error e

/-! Supporting lemmas -/

/-- Truncated remainder and absolute value commute with the natural
absolute value: `|a tmod 100| = |a| mod 100`. -/
lemma natAbs_tmod_hundred (a : Int) : (Int.tmod a 100).natAbs = a.natAbs % 100 := by
  rcases a with m | m
  · simp [Int.tmod]; omega
  · simp [Int.tmod]; omega

/-- ToInt32 preserves the residue modulo 2^32. -/
lemma toInt32_emod (x : Int) : toInt32 x % 2 ^ 32 = x % 2 ^ 32 := by
  unfold toInt32; omega

/-- ToInt32 only depends on the residue modulo 2^32. -/
lemma toInt32_congr {x y : Int} (h : x % 2 ^ 32 = y % 2 ^ 32) :
    toInt32 x = toInt32 y := by
  unfold toInt32; omega

/-- The inner ToInt32 of the JavaScript shift is redundant: shifting the
exact value left by three gives the same 32-bit result. -/
lemma jsShl3_eq_toInt32_mul (x : Int) : jsShl3 x = toInt32 (x * 8) := by
  unfold jsShl3
  refine toInt32_congr ?_
  calc toInt32 x * 8 % 2 ^ 32
      = toInt32 x % 2 ^ 32 * (8 % 2 ^ 32) % 2 ^ 32 := by
        rw [← Int.mul_emod]
    _ = x % 2 ^ 32 * (8 % 2 ^ 32) % 2 ^ 32 := by rw [toInt32_emod]
    _ = x * 8 % 2 ^ 32 := by rw [← Int.mul_emod]

/-- Characters of decimal digits below ten are digit characters. -/
lemma digitChar_isDigit {d : Nat} (h : d < 10) : (Nat.digitChar d).isDigit = true := by
  interval_cases d <;> decide

/-- Reading back the character of a decimal digit below ten. -/
lemma digToNat_digitChar {d : Nat} (h : d < 10) : digToNat (Nat.digitChar d) = d := by
  interval_cases d <;> decide

/-- Character list of the decimal rendering of a positive number. -/
lemma natToString_data (n : Nat) (h : n ≠ 0) :
    (natToString n).data = ((Nat.digits 10 n).map Nat.digitChar).reverse := by
  simp [natToString, h]

/-- Every character of a decimal rendering is a digit. -/
lemma natToString_all_digits (n : Nat) :
    (natToString n).data.all Char.isDigit = true := by
  by_cases h : n = 0
  · subst h; decide
  · rw [natToString_data n h, List.all_eq_true]
    intro c hc
    rw [List.mem_reverse, List.mem_map] at hc
    obtain ⟨d, hd, rfl⟩ := hc
    exact digitChar_isDigit (Nat.digits_lt_base (by norm_num) hd)

/-- Digit-list reading is a left inverse of decimal rendering. -/
lemma parseDigits_natToString (n : Nat) :
    parseDigits (natToString n).data = some n := by
  by_cases h : n = 0
  · subst h; decide
  · have hne : (natToString n).data ≠ [] := by
      rw [natToString_data n h]
      simp [Nat.digits_ne_nil_iff_ne_zero, h]
    rw [parseDigits, if_pos ⟨hne, natToString_all_digits n⟩]
    rw [natToString_data n h, ← List.map_reverse, List.reverse_reverse,
        List.map_map]
    have hmap : (Nat.digits 10 n).map (digToNat ∘ Nat.digitChar) = Nat.digits 10 n := by
      have := List.map_congr_left (l := Nat.digits 10 n)
        (f := digToNat ∘ Nat.digitChar) (g := id)
        (fun d hd => digToNat_digitChar (Nat.digits_lt_base (by norm_num) hd))
      simpa using this
    rw [hmap, Nat.ofDigits_digits]

/-- Decimal renderings are non-empty. -/
lemma natToString_data_ne_nil (n : Nat) : (natToString n).data ≠ [] := by
  intro h
  have := parseDigits_natToString n
  rw [h] at this
  simp [parseDigits] at this

/-- JavaScript `Number` is a left inverse of `String` on the natural
numbers this module stores. -/
lemma jsNumber_natToString (n : Nat) : jsNumber (natToString n) = .num n := by
  have hd := parseDigits_natToString n
  have hall := natToString_all_digits n
  have hne := natToString_data_ne_nil n
  have hInf : natToString n ≠ "Infinity" := by
    intro h; rw [h] at hall; exact absurd hall (by decide)
  have hNInf : natToString n ≠ "-Infinity" := by
    intro h; rw [h] at hall; exact absurd hall (by decide)
  have hdash : ¬((natToString n).data.head? = some '-') := by
    cases hcs : (natToString n).data with
    | nil => simp
    | cons c rest =>
      simp only [List.head?]
      intro hsome
      have hc : c = '-' := by simpa using hsome
      rw [hcs, List.all_cons, Bool.and_eq_true] at hall
      have := hall.1
      rw [hc] at this
      exact absurd this (by decide)
  rw [jsNumber, if_neg hne, if_neg hInf, if_neg hNInf, if_neg hdash, hd]

/-- Hash percents always lie below 100. -/
lemma getHashPercent_lt (seed : List Nat) : getHashPercent seed < 100 := by
  rw [getHashPercent, natAbs_tmod_hundred]
  exact Nat.mod_lt _ (by norm_num)

/-- JavaScript strict order composes with the non-strict one on doubles. -/
lemma jsLt_of_jsLt_of_jsLe {a b c : JsNum} (h1 : jsLt a b = true)
    (h2 : jsLe b c = true) : jsLt a c = true := by
  cases a <;> cases b <;> cases c <;> simp_all [jsLt, jsLe]
  exact lt_of_lt_of_le h1 h2

/-- Characterization of the `fpr_enabled` block: the explicit entry wins,
otherwise the secondary default true applies. -/
lemma applyLoggingEnabled_eq (entries : RemoteConfigTemplate) (s : Settings) :
    applyLoggingEnabled entries s =
      { s with loggingEnabled :=
          match entries.fpr_enabled with
          | some v => v == "true"
          | none => true } := by
  cases h : entries.fpr_enabled <;>
    simp [applyLoggingEnabled, SECONDARY_CONFIGS, h]

/-- Characterization of the `fpr_log_source` block: a non-empty explicit
entry wins, otherwise the field is unchanged (there is no secondary log
source). -/
lemma applyLogSource_eq (entries : RemoteConfigTemplate) (s : Settings) :
    applyLogSource entries s =
      { s with logSource :=
          match entries.fpr_log_source with
          | some v => if v = "" then s.logSource else jsNumber v
          | none => s.logSource } := by
  cases h : entries.fpr_log_source with
  | none => simp [applyLogSource, strTruthy, jsNumTruthy, SECONDARY_CONFIGS, h]
  | some v =>
    by_cases hv : v = "" <;>
      simp [applyLogSource, strTruthy, jsNumTruthy, SECONDARY_CONFIGS, h, hv]

/-- Characterization of the `fpr_log_endpoint_url` block: a non-empty
explicit entry wins, otherwise the field is unchanged. -/
lemma applyLogEndPointUrl_eq (entries : RemoteConfigTemplate) (s : Settings) :
    applyLogEndPointUrl entries s =
      { s with logEndPointUrl :=
          match entries.fpr_log_endpoint_url with
          | some v => if v = "" then s.logEndPointUrl else v
          | none => s.logEndPointUrl } := by
  cases h : entries.fpr_log_endpoint_url with
  | none => simp [applyLogEndPointUrl, strTruthy, SECONDARY_CONFIGS, h]
  | some v =>
    by_cases hv : v = "" <;>
      simp [applyLogEndPointUrl, strTruthy, SECONDARY_CONFIGS, h, hv]

/-- Characterization of the `fpr_log_transport_key` block: a non-empty
explicit entry wins, otherwise the field is unchanged. -/
lemma applyTransportKey_eq (entries : RemoteConfigTemplate) (s : Settings) :
    applyTransportKey entries s =
      { s with transportKey :=
          match entries.fpr_log_transport_key with
          | some v => if v = "" then s.transportKey else v
          | none => s.transportKey } := by
  cases h : entries.fpr_log_transport_key with
  | none => simp [applyTransportKey, strTruthy, SECONDARY_CONFIGS, h]
  | some v =>
    by_cases hv : v = "" <;>
      simp [applyTransportKey, strTruthy, SECONDARY_CONFIGS, h, hv]

/-- Characterization of the transport-flag block as the three-way rule on
the config state. -/
lemma applyTransportFlag_eq (iid : List Nat) (entries : RemoteConfigTemplate)
    (state : Option String) (s : Settings) :
    applyTransportFlag iid entries state s =
      { s with shouldSendToTransport :=
          if state = none ∨ state = some "INSTANCE_STATE_UNSPECIFIED"
              ∨ state = some "NO_TEMPLATE" then
            false
          else
            match entries.fpr_log_transport_web_percent with
            | some p => isDestTransport iid (jsNumber p)
            | none => true } := by
  have hb : (state.isNone || state == some "INSTANCE_STATE_UNSPECIFIED"
      || state == some "NO_TEMPLATE")
      = decide (state = none ∨ state = some "INSTANCE_STATE_UNSPECIFIED"
          ∨ state = some "NO_TEMPLATE") := by
    cases state with
    | none => simp
    | some v => simp; rfl
  by_cases hc : state = none ∨ state = some "INSTANCE_STATE_UNSPECIFIED"
      ∨ state = some "NO_TEMPLATE"
  · simp [applyTransportFlag, hb, hc, NO_TEMPLATE_CONFIGS]
  · cases hwp : entries.fpr_log_transport_web_percent <;>
      simp [applyTransportFlag, hb, hc, hwp, NO_TEMPLATE_CONFIGS,
        SECONDARY_CONFIGS]

/-- Characterization of the network sampling-rate block. -/
lemma applyNetworkRate_eq (entries : RemoteConfigTemplate) (s : Settings) :
    applyNetworkRate entries s =
      { s with networkRequestsSamplingRate :=
          match entries.fpr_vc_network_request_sampling_rate with
          | some v => jsNumber v
          | none => s.networkRequestsSamplingRate } := by
  cases h : entries.fpr_vc_network_request_sampling_rate <;>
    simp [applyNetworkRate, SECONDARY_CONFIGS, h]

/-- Characterization of the trace sampling-rate block. -/
lemma applyTraceRate_eq (entries : RemoteConfigTemplate) (s : Settings) :
    applyTraceRate entries s =
      { s with tracesSamplingRate :=
          match entries.fpr_vc_trace_sampling_rate with
          | some v => jsNumber v
          | none => s.tracesSamplingRate } := by
  cases h : entries.fpr_vc_trace_sampling_rate <;>
    simp [applyTraceRate, SECONDARY_CONFIGS, h]

/-! Claim theorems -/

/-- C1 (counterexample): on the ten-character seed with code units
`[43, 102, 64, 36, 118, 41, 42, 34, 89, 33]` the source hash gives bucket
66 while the claim's fully-wrapping 32-bit reference computation gives
bucket 30, so `getHashPercent` does not equal the reference computation. -/
theorem getHashPercent_ne_specWrap_counterexample :
    getHashPercent [43, 102, 64, 36, 118, 41, 42, 34, 89, 33] ≠
      specWrapHashPercent [43, 102, 64, 36, 118, 41, 42, 34, 89, 33] := by
  decide

/-- C1 (amended): for every seed, `getHashPercent(seed)` equals the
reference computation in which only the multiplication/shift truncates to
32-bit signed range at each step — `hash = toInt32(hash*8) + hash -
charCode`, the remaining additions being exact so that the running value
may leave the 32-bit range — with final value `abs(hash) mod 100`. -/
theorem getHashPercent_eq_shift_truncating_reference (seed : List Nat) :
    getHashPercent seed = specShiftTruncHashPercent seed := by
  have hstep : hashStep = fun (h : Int) (c : Nat) => toInt32 (h * 8) + h - c := by
    funext h c
    rw [hashStep, jsShl3_eq_toInt32_mul]
  rw [getHashPercent, hashLoop, hstep, natAbs_tmod_hundred,
    specShiftTruncHashPercent]

/-- C3: every hash percent lies in [0, 99], the empty seed hashes to a
defined value (0, the loop body never runs), and the transport split is
false on the empty installation id for every rollout percent. -/
theorem getHashPercent_range_empty_seed (seed : List Nat) (p : JsNum) :
    getHashPercent seed < 100 ∧ getHashPercent [] = 0 ∧
      isDestTransport [] p = false :=
  ⟨getHashPercent_lt seed, rfl, rfl⟩

/-- C4: `isDestTransport` is deterministic — two evaluations at the same
(id, percent) coincide — and monotone in the percent for a fixed id. -/
theorem isDestTransport_deterministic_monotone (iid : List Nat)
    (p p' : JsNum) (hle : jsLe p p' = true)
    (hp : isDestTransport iid p = true) :
    isDestTransport iid p = isDestTransport iid p ∧
      isDestTransport iid p' = true := by
  refine ⟨rfl, ?_⟩
  rw [isDestTransport] at hp ⊢
  by_cases hlen : iid.length = 0
  · rw [if_pos hlen] at hp
    exact absurd hp (by decide)
  · rw [if_neg hlen] at hp ⊢
    exact jsLt_of_jsLt_of_jsLe hp hle

/-- C4 (witness): instantiated at id "a" (hash 97) and percents 98 ≤ 99. -/
theorem isDestTransport_deterministic_monotone_witness :
    isDestTransport [97] (.num 98) = isDestTransport [97] (.num 98) ∧
      isDestTransport [97] (.num 99) = true :=
  isDestTransport_deterministic_monotone [97] (.num 98) (.num 99)
    (by decide) (by decide)

/-- C8: `processConfig` on an absent response returns the absent response
and leaves every settings field untouched. -/
theorem processConfig_absent_response_no_mutation (iid : List Nat)
    (s : Settings) (randTrace randNetwork : ℚ) :
    processConfig iid none s randTrace randNetwork = (none, s) := rfl

/-- C10: the rollout percent is not range-validated: on a non-empty
installation id every percent at least 100 routes to the transport and
every percent at most 0 does not, because the hash percent always lies in
[0, 99]. -/
theorem isDestTransport_no_range_validation (iid : List Nat) (p : JsNum)
    (hid : iid ≠ []) :
    (jsLe (.num 100) p = true → isDestTransport iid p = true) ∧
      (jsLe p (.num 0) = true → isDestTransport iid p = false) := by
  have hlen : ¬iid.length = 0 := by simpa using hid
  have hlt : (getHashPercent iid : ℚ) < 100 := by
    exact_mod_cast getHashPercent_lt iid
  have hge : (0 : ℚ) ≤ (getHashPercent iid : ℚ) := by positivity
  constructor
  · intro h
    rw [isDestTransport, if_neg hlen]
    cases p with
    | nan => exact absurd h (by decide)
    | inf => rfl
    | ninf => exact absurd h (by decide)
    | num q =>
      have hq : (100 : ℚ) ≤ q := by simpa [jsLe] using h
      simpa [jsLt] using lt_of_lt_of_le hlt hq
  · intro h
    rw [isDestTransport, if_neg hlen]
    cases p with
    | nan => rfl
    | inf => exact absurd h (by decide)
    | ninf => rfl
    | num q =>
      have hq : q ≤ 0 := by simpa [jsLe] using h
      simpa [jsLt] using not_lt.mpr (hq.trans hge)

/-- C10 (witness): instantiated at id "a" with percents 100 and 0. -/
theorem isDestTransport_no_range_validation_witness :
    isDestTransport [97] (.num 100) = true ∧
      isDestTransport [97] (.num 0) = false :=
  ⟨(isDestTransport_no_range_validation [97] (.num 100) (by decide)).1
      (by decide),
    (isDestTransport_no_range_validation [97] (.num 0) (by decide)).2
      (by decide)⟩

/-- C2: for every non-absent response, the transport-send flag follows the
three-way rule on the response state: an absent, unspecified or
no-template state forces it to false regardless of the rollout field;
otherwise a present `fpr_log_transport_web_percent` routes through
`isDestTransport` on the installation id, and an absent one defaults to
true. -/
theorem processConfig_transport_three_way_rule (iid : List Nat)
    (cfg : RemoteConfigResponse) (s : Settings) (randTrace randNetwork : ℚ) :
    ((processConfig iid (some cfg) s randTrace randNetwork).2).shouldSendToTransport =
      (if cfg.state = none ∨ cfg.state = some "INSTANCE_STATE_UNSPECIFIED"
          ∨ cfg.state = some "NO_TEMPLATE" then
        false
      else
        match (cfg.entries.getD {}).fpr_log_transport_web_percent with
        | some p => isDestTransport iid (jsNumber p)
        | none => true) := by
  rcases cfg with ⟨entries, state⟩
  simp only [processConfig, applyLoggingEnabled_eq, applyLogSource_eq,
    applyLogEndPointUrl_eq, applyTransportKey_eq, applyTransportFlag_eq,
    applyNetworkRate_eq, applyTraceRate_eq, applySamplingFlags]

/-- C7 (counterexample): an explicit empty-string `fpr_log_source` entry is
present in the response, and its coerced value (`Number("") = 0`) differs
from the prior settings value 7, yet `processConfig` leaves the settings
field unchanged — the explicit value does not win, contradicting the
claimed precedence. -/
theorem processConfig_explicit_empty_ignored_counterexample :
    ((processConfig []
        (some { entries := some { fpr_log_source := some "" },
                state := some "UPDATE" })
        ⟨true, .num 7, "", "", true, .nan, .nan, false, false⟩ 0 0).2).logSource
      = .num 7
    ∧ ((some { fpr_log_source := some "" } : Option RemoteConfigTemplate).getD
        {}).fpr_log_source = some ""
    ∧ jsNumber "" ≠ JsNum.num 7 := by
  decide

/-- C7 (amended): for every non-absent response, each recognized settings
field follows the precedence in which a present entry wins over the
secondary default, which wins over leaving the field unchanged — where for
`fpr_log_source`, `fpr_log_endpoint_url` and `fpr_log_transport_key` only
a non-empty entry counts as present (an empty string is treated as
missing); a missing `fpr_enabled` takes the secondary default true, and
the fields without a secondary default are left unchanged when their entry
is missing. -/
theorem processConfig_field_precedence (iid : List Nat)
    (cfg : RemoteConfigResponse) (s : Settings) (randTrace randNetwork : ℚ) :
    ((processConfig iid (some cfg) s randTrace randNetwork).2).loggingEnabled =
      (match (cfg.entries.getD {}).fpr_enabled with
       | some v => v == "true"
       | none => true)
    ∧ ((processConfig iid (some cfg) s randTrace randNetwork).2).logSource =
      (match (cfg.entries.getD {}).fpr_log_source with
       | some v => if v = "" then s.logSource else jsNumber v
       | none => s.logSource)
    ∧ ((processConfig iid (some cfg) s randTrace randNetwork).2).logEndPointUrl =
      (match (cfg.entries.getD {}).fpr_log_endpoint_url with
       | some v => if v = "" then s.logEndPointUrl else v
       | none => s.logEndPointUrl)
    ∧ ((processConfig iid (some cfg) s randTrace randNetwork).2).transportKey =
      (match (cfg.entries.getD {}).fpr_log_transport_key with
       | some v => if v = "" then s.transportKey else v
       | none => s.transportKey)
    ∧ ((processConfig iid (some cfg) s randTrace
          randNetwork).2).networkRequestsSamplingRate =
      (match (cfg.entries.getD {}).fpr_vc_network_request_sampling_rate with
       | some v => jsNumber v
       | none => s.networkRequestsSamplingRate)
    ∧ ((processConfig iid (some cfg) s randTrace
          randNetwork).2).tracesSamplingRate =
      (match (cfg.entries.getD {}).fpr_vc_trace_sampling_rate with
       | some v => jsNumber v
       | none => s.tracesSamplingRate) := by
  rcases cfg with ⟨entries, state⟩
  refine ⟨?_, ?_, ?_, ?_, ?_, ?_⟩ <;>
    simp only [processConfig, applyLoggingEnabled_eq, applyLogSource_eq,
      applyLogEndPointUrl_eq, applyTransportKey_eq, applyTransportFlag_eq,
      applyNetworkRate_eq, applyTraceRate_eq, applySamplingFlags]

/-- C5 (failing input): on a cache miss with a successful fetch returning a
config, a throwing `localStorage.setItem` during persistence rejects the
promise returned by `getConfig` — the `() => {}` handler sits on the same
`.then` whose fulfillment handler calls `storeConfig`, so it cannot catch
this throw.  The persistence failure is therefore not silently ignored and
`getConfig` does not always resolve, although the fetch-failure path does
resolve: with a rejecting auth-token promise the same call returns
successfully with the settings untouched. -/
theorem getConfig_rejects_on_persistence_failure :
    getConfig [97]
        { localStorage := some { setItemThrows := true }
          now := 0
          configTimeToLive := 1
          authToken := .ok "token"
          fetchResult := .ok { ok := true, json := .ok { state := some "UPDATE" } } }
        ⟨true, .nan, "", "", true, .nan, .nan, false, false⟩ 0 0 = .error ()
    ∧ getConfig [97]
        { localStorage := some { setItemThrows := true }
          now := 0
          configTimeToLive := 1
          authToken := .error ()
          fetchResult := .ok { ok := true, json := .ok { state := some "UPDATE" } } }
        ⟨true, .nan, "", "", true, .nan, .nan, false, false⟩ 0 0 =
      .ok (⟨true, .nan, "", "", true, .nan, .nan, false, false⟩,
        some { setItemThrows := true }) :=
  ⟨rfl, rfl⟩

/-- C6: a stored config counts as valid exactly while the clock is strictly
below the stored expiry (an expiry equal to now is already invalid), and
`storeConfig` writes the expiry as now plus the time-to-live in hours
converted to milliseconds. -/
theorem configValid_strict_and_store_expiry (e t now ttl : Nat)
    (cfg : RemoteConfigResponse) (st : Storage)
    (h : st.setItemThrows = false) :
    configValid (natToString e) t = decide (t < e)
    ∧ configValid (natToString t) t = false
    ∧ storeConfig (some cfg) (some st) now ttl =
        .ok (some { st with
          configBlob := some (.parsed cfg)
          expiryString := some (natToString (now + ttl * 60 * 60 * 1000)) }) := by
  have h1 : ∀ a b : Nat, configValid (natToString a) b = decide (b < a) := by
    intro a b
    rw [configValid, jsNumber_natToString, jsGt]
    simp [jsLt, Nat.cast_lt]
  refine ⟨h1 e t, ?_, ?_⟩
  · rw [h1 t t]; simp
  · simp [storeConfig, h]

/-- C6 (witness): instantiated at expiry 5, clock 5 (boundary, invalid)
and a store at clock 2 with a one-hour time-to-live. -/
theorem configValid_strict_and_store_expiry_witness :
    configValid (natToString 5) 5 = decide (5 < 5)
    ∧ configValid (natToString 5) 5 = false
    ∧ storeConfig (some {}) (some {}) 2 1 =
        .ok (some { configBlob := some (.parsed {})
                    expiryString := some (natToString (2 + 1 * 60 * 60 * 1000)) }) :=
  configValid_strict_and_store_expiry 5 5 2 1 {} {} rfl

/-- C9: a response stored through `storeConfig` and read back through
`getStoredConfig` before its expiry produces exactly the same
`processConfig` application as the original response (the same random
draws are supplied to both sides). -/
theorem stored_config_roundtrip (iid : List Nat) (cfg : RemoteConfigResponse)
    (st : Storage) (t0 ttl t1 : Nat) (s : Settings)
    (randTrace randNetwork : ℚ) (stored : Option Storage)
    (hstore : storeConfig (some cfg) (some st) t0 ttl = .ok stored)
    (hvalid : t1 < t0 + ttl * 60 * 60 * 1000) :
    processConfig iid (getStoredConfig stored t1) s randTrace randNetwork =
      processConfig iid (some cfg) s randTrace randNetwork := by
  simp only [storeConfig] at hstore
  by_cases hthrow : st.setItemThrows
  · rw [if_pos hthrow] at hstore
    cases hstore
  · rw [if_neg hthrow] at hstore
    injection hstore with hst
    rw [← hst]
    have hne : (natToString (t0 + ttl * 60 * 60 * 1000) == "") = false := by
      rw [beq_eq_false_iff_ne]
      intro hcontra
      exact natToString_data_ne_nil _ (by rw [hcontra])
    have hcv : configValid (natToString (t0 + ttl * 60 * 60 * 1000)) t1 = true := by
      rw [configValid, jsNumber_natToString, jsGt]
      have hq : (t1 : ℚ) < (t0 : ℚ) + (ttl : ℚ) * 60 * 60 * 1000 := by
        exact_mod_cast hvalid
      simp [jsLt, hq]
    simp only [getStoredConfig, hne, hcv]
    simp

/-- C9 (witness): a concrete response stored at clock 0 with a one-hour
time-to-live and read back at clock 5. -/
theorem stored_config_roundtrip_witness :
    processConfig [97]
        (getStoredConfig
          (some { configBlob := some (.parsed { state := some "UPDATE" })
                  expiryString := some (natToString (0 + 1 * 60 * 60 * 1000)) }) 5)
        ⟨true, .nan, "", "", true, .nan, .nan, false, false⟩ 0 0 =
      processConfig [97] (some { state := some "UPDATE" })
        ⟨true, .nan, "", "", true, .nan, .nan, false, false⟩ 0 0 :=
  stored_config_roundtrip [97] { state := some "UPDATE" } {} 0 1 5
    ⟨true, .nan, "", "", true, .nan, .nan, false, false⟩ 0 0
    (some { configBlob := some (.parsed { state := some "UPDATE" })
            expiryString := some (natToString (0 + 1 * 60 * 60 * 1000)) })
    rfl (by decide)

end RemoteConfigService
